import Mathlib

/-!
Shallow embedding of the DAWZY Electron/React session and transport core.

The definitions below are translated from the repository sources:
  * `main.js` — the `send-to-backend` IPC handler, the Python backend
    lifecycle (`startPythonBackend`, the `close` handler), and the
    per-request stdout listener / 10 second timeout machinery.
  * `src/components/VoiceButton.jsx` — microphone acquisition, chunk
    buffering, stop/onstop handling, transcription result handling, and the
    unmount cleanup effect.
  * `src/components/ChatWindow.jsx` — the conversation log (`messages`
    state) and `sendMessage`.

State is modelled explicitly and every operation is an executable function
on the state, so concrete runs can be evaluated with `decide` / `rfl`.
-/

namespace DAWZY

/-! ## Backend transport (main.js, `send-to-backend` handler)

Each invocation of the handler creates a Promise, registers a fresh
`responseHandler` on the shared `pythonProcess.stdout` `data` event, writes
the envelope `{ type: "message", content }` to stdin (note: no id field of
any kind), and arms a 10000 ms timeout that removes the listener and
rejects. A `data` emission invokes every currently registered handler (a
snapshot, as the Node event emitter does); each handler that parses a
`type === "response"` line removes itself and resolves its own promise.
JS promise semantics: resolve/reject on an already settled promise is a
no-op. -/

/-- The resolved value built by `responseHandler` in main.js:
`{ reply: response.content, success: response.success, actions: response.actions || [] }`. -/
structure Reply where
  reply : String
  success : Bool
  actions : List String
deriving DecidableEq, Repr

/-- A line arriving on the backend stdout: either a parseable JSON object
with `type === "response"`, or anything else (non-JSON, or a JSON object of
another type), which `responseHandler` ignores via its try/catch. -/
inductive StdoutLine where
  | response (content : String) (success : Bool) (actions : List String)
  | other
deriving DecidableEq, Repr

/-- The settlement state of one `send-to-backend` promise. -/
inductive CallOutcome where
  | pending
  | resolved (r : Reply)
  | rejected (msg : String)
deriving DecidableEq, Repr

/-- The envelope written to the backend stdin:
`JSON.stringify({ type: "message", content: message })`. It has exactly
these two fields; the handler mints no correlation identifier. -/
structure Envelope where
  type : String
  content : String
deriving DecidableEq, Repr

def mkEnvelope (message : String) : Envelope :=
  { type := "message", content := message }

/-- The fixed timeout passed to `setTimeout` in the handler (milliseconds). -/
def timeoutDelayMs : Nat := 10000

/-- Transport state: per-call promise outcomes (keyed by an invocation
counter), the list of callers whose `responseHandler` is currently
registered on the shared stdout (registration order), the armed timers
(caller, delay in ms), and the envelopes written to stdin. -/
structure TransportState where
  outcomes : List (Nat × CallOutcome)
  listeners : List Nat
  timers : List (Nat × Nat)
  written : List Envelope
  nextCallId : Nat
deriving DecidableEq, Repr

def initTransport : TransportState :=
  { outcomes := [], listeners := [], timers := [], written := [], nextCallId := 0 }

/-- JS promise `resolve`: only takes effect while the promise is pending. -/
def settleResolve (r : Reply) : CallOutcome → CallOutcome
  | .pending => .resolved r
  | o => o

/-- JS promise `reject`: only takes effect while the promise is pending. -/
def settleReject (msg : String) : CallOutcome → CallOutcome
  | .pending => .rejected msg
  | o => o

def updateOutcome (c : Nat) (f : CallOutcome → CallOutcome)
    (xs : List (Nat × CallOutcome)) : List (Nat × CallOutcome) :=
  xs.map (fun p => if p.1 = c then (p.1, f p.2) else p)

def lookupOutcome (xs : List (Nat × CallOutcome)) (c : Nat) : Option CallOutcome :=
  (xs.find? (fun p => p.1 == c)).map (fun p => p.2)

def outcomeOf (s : TransportState) (c : Nat) : Option CallOutcome :=
  lookupOutcome s.outcomes c

/-- One invocation of the `send-to-backend` handler (successful stdin
write): a new pending promise, a fresh `responseHandler` registered on the
shared stdout, the id-free envelope written, and a 10000 ms timer armed. -/
def sendToBackend (message : String) (s : TransportState) : TransportState :=
  { outcomes := s.outcomes ++ [(s.nextCallId, .pending)]
    listeners := s.listeners ++ [s.nextCallId]
    timers := s.timers ++ [(s.nextCallId, timeoutDelayMs)]
    written := s.written ++ [mkEnvelope message]
    nextCallId := s.nextCallId + 1 }

/-- A `data` emission on the shared stdout. Node invokes a snapshot of the
registered listeners. On a `type === "response"` line every handler in the
snapshot removes itself and resolves its own promise with the same parsed
reply; on any other line every handler ignores the data. -/
def emitData (line : StdoutLine) (s : TransportState) : TransportState :=
  match line with
  | .response content success actions =>
      { s with
        outcomes := s.listeners.foldl
          (fun acc c => updateOutcome c (settleResolve ⟨content, success, actions⟩) acc)
          s.outcomes
        listeners := [] }
  | .other => s

/-- The `setTimeout` callback for caller `c` firing: it removes that
caller's `responseHandler` (a no-op if already removed) and rejects with
`new Error('Backend response timeout')` (a no-op if already settled). -/
def fireTimeout (c : Nat) (s : TransportState) : TransportState :=
  { s with
    listeners := s.listeners.filter (fun x => x != c)
    outcomes := updateOutcome c (settleReject "Backend response timeout") s.outcomes }

/-! ### Transport event traces

The only events the code wires to a pending `send-to-backend` promise are:
another handler invocation, a stdout `data` emission, and the armed timeout
firing. In particular the `close` handler of the Python process touches
none of them. -/

inductive TStep where
  | send (message : String)
  | emit (line : StdoutLine)
  | timeout (c : Nat)
deriving DecidableEq, Repr

def stepTransport (s : TransportState) (e : TStep) : TransportState :=
  match e with
  | .send m => sendToBackend m s
  | .emit l => emitData l s
  | .timeout c => fireTimeout c s

def runTransport (es : List TStep) : TransportState :=
  es.foldl stepTransport initTransport

/-- The only rejection the transport wiring can produce. -/
def RejectedOnlyTimeout (s : TransportState) : Prop :=
  ∀ c m, outcomeOf s c = some (.rejected m) → m = "Backend response timeout"

/-! ## Backend process lifecycle (main.js)

`pythonProcess` starts as `null`; `startPythonBackend` spawns it. The
`close` handler logs and, when the window is open and the app is not
quitting, schedules `startPythonBackend` again after 2000 ms — it does NOT
set `pythonProcess` back to `null`. The `send-to-backend` handler's only
connectivity guard is `if (!pythonProcess) throw new Error('Python backend
not running')`. -/

structure Proc where
  alive : Bool
deriving DecidableEq, Repr

structure MainState where
  pythonProcess : Option Proc
  mainWindow : Bool
  isQuitting : Bool
  restartScheduledMs : Option Nat
deriving DecidableEq, Repr

def initMain : MainState :=
  { pythonProcess := none, mainWindow := true, isQuitting := false,
    restartScheduledMs := none }

/-- Delay passed to `setTimeout(startPythonBackend, 2000)` in the close
handler (milliseconds). -/
def restartDelayMs : Nat := 2000

def startPythonBackend (s : MainState) : MainState :=
  { s with pythonProcess := some { alive := true } }

/-- The `pythonProcess.on('close', ...)` handler: the process object has
exited (kept, marked dead); a restart is scheduled iff the window exists
and the app is not quitting. `pythonProcess` itself is left assigned. -/
def onBackendClose (s : MainState) : MainState :=
  { s with
    pythonProcess := s.pythonProcess.map (fun _ => { alive := false })
    restartScheduledMs :=
      if s.mainWindow && !s.isQuitting then some restartDelayMs else none }

/-- The connectivity guard at the top of the `send-to-backend` handler. -/
def sendToBackendGuard (s : MainState) : Except String Unit :=
  match s.pythonProcess with
  | none => .error "Python backend not running"
  | some _ => .ok ()

/-! ## Voice recording (src/components/VoiceButton.jsx)

`startRecording` is an `async` function: its body suspends immediately at
`await getUserMedia` (nothing observable happens before the await), and
only the continuation after the await stores the stream in `streamRef`,
builds the audio-analysis graph, constructs a `MediaRecorder` over the
stream, clears `audioChunksRef`, installs `ondataavailable` (which pushes
every chunk) and `onstop`, starts the recorder and finally calls
`setIsRecording(true)` (in voice mode it also arms the 3 s transcription
interval). There is no state guard at the top of `startRecording`; the
only guard in the UI is `handleClick`, which reads the `isRecording`
value of its render closure — a value that still reports `false` for
every click dispatched before the post-await continuation has run and the
re-render committed. The `catch` branch only logs and alerts — it does
not stop an already-acquired stream.

Streams are identified by an acquisition counter. `stopEvents` records
every `track.stop()` call (with multiplicity); `requests` records the
payloads POSTed to the `/transcribe` endpoint; `chatOutputs` records the
texts forwarded to the chat via `onVoiceInput`. -/

/-- Blob assembly: `new Blob(chunks)` concatenates the chunk byte
sequences in order. -/
def blobConcat (chunks : List (List Nat)) : List Nat :=
  chunks.foldr (fun c acc => c ++ acc) []

/-- JS `String.prototype.trim()`: strips leading and trailing whitespace. -/
def isWhitespaceChar (c : Char) : Bool :=
  c == ' ' || c == '\t' || c == '\n' || c == '\r'

def jsTrim (s : String) : String :=
  ⟨((s.data.dropWhile isWhitespaceChar).reverse.dropWhile isWhitespaceChar).reverse⟩

structure VBState where
  isRecording : Bool
  isProcessing : Bool
  streamRef : Option Nat
  recStream : Option Nat
  recStopRequested : Bool
  intervalActive : Bool
  acquired : List Nat
  stopEvents : List Nat
  chunks : List (List Nat)
  requests : List (List Nat)
  chatOutputs : List String
  alerts : List String
  nextStreamId : Nat
deriving DecidableEq, Repr

def initVB : VBState :=
  { isRecording := false, isProcessing := false, streamRef := none,
    recStream := none, recStopRequested := false, intervalActive := false,
    acquired := [], stopEvents := [], chunks := [], requests := [],
    chatOutputs := [], alerts := [], nextStreamId := 0 }

/-- The post-await continuation of a successful `startRecording` (the part
after `await getUserMedia` resolves): acquire a fresh stream, point
`streamRef` and the new recorder at it, reset the chunk buffer, start
recording and set `isRecording`; in voice mode the transcription interval
is armed. Equivalently, the end state of one successful `startRecording`
call that runs with no interleaved event. No previously held stream is
stopped and no state re-check is performed — the continuation runs
unconditionally for every resolved request. -/
def startRecording (voiceMode : Bool) (s : VBState) : VBState :=
  let n := s.nextStreamId
  { s with
    streamRef := some n
    recStream := some n
    recStopRequested := false
    chunks := []
    isRecording := true
    intervalActive := voiceMode
    acquired := s.acquired ++ [n]
    nextStreamId := n + 1 }

/-- `startRecording` where `getUserMedia` succeeds but a later statement of
the `try` block throws (e.g. the `MediaRecorder` constructor rejecting the
requested mime type): `streamRef` has already been assigned, the `catch`
only logs and alerts, and the acquired stream is never stopped. -/
def startRecordingFailLate (s : VBState) : VBState :=
  let n := s.nextStreamId
  { s with
    streamRef := some n
    acquired := s.acquired ++ [n]
    alerts := s.alerts ++ ["Unable to access microphone. Please check permissions."]
    nextStreamId := n + 1 }

/-- `startRecording` where `getUserMedia` itself rejects (permission
denied): only the alert fires. -/
def startRecordingDenied (s : VBState) : VBState :=
  { s with
    alerts := s.alerts ++ ["Unable to access microphone. Please check permissions."] }

/-- `ondataavailable`: pushes every delivered chunk, unconditionally. -/
def onDataAvailable (c : List Nat) (s : VBState) : VBState :=
  { s with chunks := s.chunks ++ [c] }

/-- `stopRecording`: guarded by `mediaRecorderRef.current && isRecording`.
It requests the recorder stop, clears `isRecording`, clears the
transcription interval, and stops the tracks of `streamRef.current`. -/
def stopRecording (s : VBState) : VBState :=
  if s.recStream.isSome && s.isRecording then
    { s with
      recStopRequested := true
      isRecording := false
      intervalActive := false
      stopEvents := s.stopEvents ++
        (match s.streamRef with | some n => [n] | none => []) }
  else s

/-- The `mediaRecorder.onstop` handler firing (it runs after a requested
stop): assembles the blob as the in-order concatenation of the buffered
chunks, stops the captured stream tracks AGAIN, clears the interval, sets
`isProcessing`, and sends the blob to the `/transcribe` endpoint. -/
def fireOnStop (s : VBState) : VBState :=
  if s.recStopRequested then
    match s.recStream with
    | some n =>
        { s with
          recStopRequested := false
          stopEvents := s.stopEvents ++ [n]
          intervalActive := false
          isProcessing := true
          requests := s.requests ++ [blobConcat s.chunks] }
    | none => s
  else s

/-- The `convertAudioToText` result arriving back in `onstop` (normal,
non-voice mode): `some t` models a successful `{ success, transcript }`
reply, `none` models a failed fetch, a `success: false` reply, or an empty
transcript. Only a non-null text with nonempty trim is forwarded to the
chat (`onVoiceInput(text)` — untrimmed); everything else is merely logged
to the console. -/
def onTranscriptionResult (text : Option String) (s : VBState) : VBState :=
  match text with
  | some t =>
      if jsTrim t = "" then { s with isProcessing := false }
      else { s with isProcessing := false, chatOutputs := s.chatOutputs ++ [t] }
  | none => { s with isProcessing := false }

/-- The component unmount cleanup effect: clears the transcription
interval, stops the tracks of `streamRef.current`, closes the audio
context. -/
def unmountCleanup (s : VBState) : VBState :=
  { s with
    intervalActive := false
    stopEvents := s.stopEvents ++
      (match s.streamRef with | some n => [n] | none => []) }

/-- Streams acquired and never yet stopped: the device handles currently
held. -/
def heldStreams (s : VBState) : List Nat :=
  s.acquired.filter (fun n => decide (n ∉ s.stopEvents))

/-! ### Event-driven runs of the VoiceButton component

The click handler is `if (isRecording) stopRecording() else
startRecording()`, but `startRecording` suspends at `await getUserMedia`
and `setIsRecording(true)` runs only in its continuation, so a click is
NOT an atomic start: between the click and the resolution there is a
window in which the committed `isRecording` (the value a later click
dispatch reads) is still `false`. The component is therefore modelled
with a pending-request counter on top of `VBState`: a click either calls
`stopRecording` (committed flag true) or merely begins a `getUserMedia`
request; a separate resolution event runs the post-await continuation
(`startRecording` above) for one pending request — re-checking nothing,
exactly as the source continuation does. -/

structure Msg where
  id : Nat
  sender : String
  text : String
  audio : Option String
  success : Option Bool
deriving DecidableEq, Repr

def initialMessages : List Msg :=
  [{ id := 1, sender := "ai",
     text := "Hi! I\x27m DAWZY, your music production assistant. How can I help you today?",
     audio := none, success := none }]

structure ChatState where
  messages : List Msg
  input : String
  liveTranscription : String
  isLoading : Bool
  requests : List String
deriving DecidableEq, Repr

def chatInit : ChatState :=
  { messages := initialMessages, input := "", liveTranscription := "",
    isLoading := false, requests := [] }

/-- Result of the `/chat` fetch: a parsed `{ success: true, response,
audio }` reply, a parsed `{ success: false, error }` reply, or a thrown
fetch/parse failure. -/
inductive ChatResult where
  | ok (resp : String) (audio : Option String)
  | err (e : String)
  | fetchFail
deriving DecidableEq, Repr

/-- JS `||` on strings: the empty string is the only falsy string. -/
def jsOrString (a b : String) : String := if a = "" then b else a

/-- `messageText || input.trim() || liveTranscription.trim()` — with
`messageText` defaulting to `null` (modelled `none`, falsy like `""`). -/
def textToSend (mtext : Option String) (s : ChatState) : String :=
  jsOrString (mtext.getD "") (jsOrString (jsTrim s.input) (jsTrim s.liveTranscription))

def userMsg (t : String) (now : Nat) : Msg :=
  { id := now, sender := "user", text := t, audio := none, success := none }

def replyMsg (now2 : Nat) (res : ChatResult) : Msg :=
  match res with
  | .ok r a =>
      { id := now2 + 1, sender := "ai", text := r, audio := a, success := some true }
  | .err e =>
      { id := now2 + 1, sender := "ai", text := "Error: " ++ e, audio := none,
        success := some false }
  | .fetchFail =>
      { id := now2 + 1, sender := "ai",
        text := "Sorry, I\x27m having trouble connecting to my backend. Please try again.",
        audio := none, success := some false }

/-- One complete `sendMessage(messageText)` call: `now` is `Date.now()` at
the user-message append, `now2` is `Date.now()` at the reply append, `res`
is the outcome of the `/chat` fetch. -/
def sendMessage (mtext : Option String) (now now2 : Nat) (res : ChatResult)
    (s : ChatState) : ChatState :=
  let t := textToSend mtext s
  if t = "" || s.isLoading then s
  else
    { messages := s.messages ++ [userMsg t now, replyMsg now2 res]
      input := ""
      liveTranscription := ""
      isLoading := false
      requests := s.requests ++ [t] }

/-! ## Concrete runs used as counterexamples and witnesses -/

def twoPendingState : TransportState :=
  sendToBackend "b" (sendToBackend "a" initTransport)

def crossTalkState : TransportState :=
  emitData (.response "hi" true []) twoPendingState

def wTimeoutState : TransportState :=
  fireTimeout 0 (sendToBackend "a" initTransport)

def closedBackendState : MainState :=
  onBackendClose (startPythonBackend initMain)

def normalStopRun : VBState :=
  fireOnStop (stopRecording (startRecording false initVB))

def silentFailureRun : VBState :=
  onTranscriptionResult none
    (fireOnStop (stopRecording (onDataAvailable [1, 2, 3] (startRecording false initVB))))

def dupIdRun : ChatState :=
  sendMessage (some "again") 101 200 (.ok "r2" none)
    (sendMessage (some "hello") 100 100 (.ok "r1" none) chatInit)

def whitespaceSendRun : ChatState :=
  sendMessage (some " ") 50 60 (.ok "r" none) chatInit

theorem lookupOutcome_cons (k : Nat) (v : CallOutcome) (t : List (Nat × CallOutcome))
    (c : Nat) :
    lookupOutcome ((k, v) :: t) c = if k = c then some v else lookupOutcome t c := by
  by_cases h : k = c <;> simp [lookupOutcome, List.find?_cons, h]

theorem updateOutcome_cons (k : Nat) (v : CallOutcome) (t : List (Nat × CallOutcome))
    (d : Nat) (f : CallOutcome → CallOutcome) :
    updateOutcome d f ((k, v) :: t) =
      (if k = d then (k, f v) else (k, v)) :: updateOutcome d f t := by
  by_cases h : k = d <;> simp [updateOutcome, h]

theorem lookupOutcome_updateOutcome_self (xs : List (Nat × CallOutcome)) (c : Nat)
    (f : CallOutcome → CallOutcome) :
    lookupOutcome (updateOutcome c f xs) c = (lookupOutcome xs c).map f := by
  induction xs with
  | nil => rfl
  | cons p rest ih =>
    obtain ⟨k, v⟩ := p
    rw [updateOutcome_cons]
    by_cases hkc : k = c
    · rw [if_pos hkc, lookupOutcome_cons, if_pos hkc, lookupOutcome_cons, if_pos hkc]
      rfl
    · rw [if_neg hkc, lookupOutcome_cons, if_neg hkc, lookupOutcome_cons, if_neg hkc]
      exact ih

theorem lookupOutcome_updateOutcome_ne (xs : List (Nat × CallOutcome)) (c d : Nat)
    (f : CallOutcome → CallOutcome) (hcd : c ≠ d) :
    lookupOutcome (updateOutcome d f xs) c = lookupOutcome xs c := by
  induction xs with
  | nil => rfl
  | cons p rest ih =>
    obtain ⟨k, v⟩ := p
    rw [updateOutcome_cons]
    by_cases hkd : k = d
    · have hkc : k ≠ c := fun h => hcd (h ▸ hkd ▸ rfl)
      rw [if_pos hkd, lookupOutcome_cons, if_neg hkc, lookupOutcome_cons, if_neg hkc]
      exact ih
    · rw [if_neg hkd]
      by_cases hkc : k = c
      · rw [lookupOutcome_cons, if_pos hkc, lookupOutcome_cons, if_pos hkc]
      · rw [lookupOutcome_cons, if_neg hkc, lookupOutcome_cons, if_neg hkc]
        exact ih

theorem lookupOutcome_foldl_not_mem (ls : List Nat) (xs : List (Nat × CallOutcome))
    (c : Nat) (f : CallOutcome → CallOutcome) (h : c ∉ ls) :
    lookupOutcome (ls.foldl (fun acc d => updateOutcome d f acc) xs) c =
      lookupOutcome xs c := by
  induction ls generalizing xs with
  | nil => rfl
  | cons d rest ih =>
    have hcd : c ≠ d := fun hc => h (hc ▸ List.mem_cons_self d rest)
    have hrest : c ∉ rest := fun hc => h (List.mem_cons_of_mem d hc)
    simp only [List.foldl_cons]
    rw [ih _ hrest, lookupOutcome_updateOutcome_ne _ _ _ _ hcd]

theorem lookupOutcome_foldl_fixed (ls : List Nat) (xs : List (Nat × CallOutcome))
    (c : Nat) (f : CallOutcome → CallOutcome) (o : CallOutcome)
    (ho : lookupOutcome xs c = some o) (hf : f o = o) :
    lookupOutcome (ls.foldl (fun acc d => updateOutcome d f acc) xs) c = some o := by
  induction ls generalizing xs with
  | nil => exact ho
  | cons d rest ih =>
    simp only [List.foldl_cons]
    apply ih
    by_cases hcd : c = d
    · subst hcd
      rw [lookupOutcome_updateOutcome_self, ho]
      simp [hf]
    · rw [lookupOutcome_updateOutcome_ne _ _ _ _ hcd]
      exact ho

/-- Helper: a caller whose promise is already settled, or whose handler is
no longer registered, is untouched by any stdout data emission. -/
theorem outcomeOf_emitData_stable (s : TransportState) (c : Nat) (o : CallOutcome)
    (line : StdoutLine) (ho : outcomeOf s c = some o)
    (h : o ≠ .pending ∨ c ∉ s.listeners) :
    outcomeOf (emitData line s) c = some o := by
  cases line with
  | other => exact ho
  | response content success actions =>
    rcases h with hne | hnl
    · have hfix : settleResolve ⟨content, success, actions⟩ o = o := by
        cases o with
        | pending => exact absurd rfl hne
        | resolved r => rfl
        | rejected m => rfl
      exact lookupOutcome_foldl_fixed _ _ _ _ _ ho hfix
    · exact (lookupOutcome_foldl_not_mem _ _ _ _ hnl).trans ho

theorem settleResolve_rejected (r : Reply) (o : CallOutcome) (m : String)
    (h : settleResolve r o = .rejected m) : o = .rejected m := by
  cases o with
  | pending => simp [settleResolve] at h
  | resolved r2 => simp [settleResolve] at h
  | rejected m2 => exact h

theorem lookupOutcome_append_pending (xs : List (Nat × CallOutcome)) (n c : Nat)
    (m : String) (h : lookupOutcome (xs ++ [(n, .pending)]) c = some (.rejected m)) :
    lookupOutcome xs c = some (.rejected m) := by
  induction xs with
  | nil =>
    rw [List.nil_append, lookupOutcome_cons] at h
    by_cases hnc : n = c
    · rw [if_pos hnc] at h; exact absurd h (by simp)
    · rw [if_neg hnc] at h; exact absurd h (by simp [lookupOutcome])
  | cons p rest ih =>
    obtain ⟨k, v⟩ := p
    rw [List.cons_append, lookupOutcome_cons] at h
    rw [lookupOutcome_cons]
    by_cases hkc : k = c
    · rw [if_pos hkc] at h ⊢; exact h
    · rw [if_neg hkc] at h ⊢; exact ih h

theorem lookupOutcome_foldl_resolve_rejected (ls : List Nat)
    (xs : List (Nat × CallOutcome)) (c : Nat) (r : Reply) (m : String)
    (h : lookupOutcome
        (ls.foldl (fun acc d => updateOutcome d (settleResolve r) acc) xs) c =
      some (.rejected m)) :
    lookupOutcome xs c = some (.rejected m) := by
  induction ls generalizing xs with
  | nil => exact h
  | cons d rest ih =>
    simp only [List.foldl_cons] at h
    have h2 := ih _ h
    by_cases hcd : c = d
    · subst hcd
      rw [lookupOutcome_updateOutcome_self] at h2
      cases hx : lookupOutcome xs c with
      | none => rw [hx] at h2; exact absurd h2 (by simp)
      | some o =>
        rw [hx] at h2
        simp only [Option.map_some'] at h2
        exact congrArg some (settleResolve_rejected r o m (Option.some.inj h2))
    · rw [lookupOutcome_updateOutcome_ne _ _ _ _ hcd] at h2
      exact h2

theorem stepTransport_rejected (s : TransportState) (e : TStep)
    (hs : RejectedOnlyTimeout s) : RejectedOnlyTimeout (stepTransport s e) := by
  intro c m h
  cases e with
  | send msg =>
    exact hs c m (lookupOutcome_append_pending _ _ _ _ h)
  | emit line =>
    cases line with
    | response content success actions =>
      exact hs c m (lookupOutcome_foldl_resolve_rejected _ _ _ _ _ h)
    | other => exact hs c m h
  | timeout c2 =>
    by_cases hcc : c = c2
    · subst hcc
      have h' : lookupOutcome
          (updateOutcome c (settleReject "Backend response timeout") s.outcomes) c =
          some (.rejected m) := h
      rw [lookupOutcome_updateOutcome_self] at h'
      cases hx : lookupOutcome s.outcomes c with
      | none => rw [hx] at h'; exact absurd h' (by simp)
      | some o =>
        rw [hx] at h'
        simp only [Option.map_some'] at h'
        have h2 : settleReject "Backend response timeout" o = .rejected m :=
          Option.some.inj h'
        cases o with
        | pending =>
          have : CallOutcome.rejected "Backend response timeout" = .rejected m := h2
          exact (CallOutcome.rejected.inj this).symm
        | resolved r => simp [settleReject] at h2
        | rejected m2 =>
          have hm2 : m2 = m := CallOutcome.rejected.inj h2
          exact hm2 ▸ hs c m2 hx
    · have h' : lookupOutcome
          (updateOutcome c2 (settleReject "Backend response timeout") s.outcomes) c =
          some (.rejected m) := h
      rw [lookupOutcome_updateOutcome_ne _ _ _ _ hcc] at h'
      exact hs c m h'

theorem runTransport_rejected (es : List TStep) (c : Nat) (m : String)
    (h : outcomeOf (runTransport es) c = some (.rejected m)) :
    m = "Backend response timeout" := by
  suffices hgen : ∀ (l : List TStep) (s : TransportState),
      RejectedOnlyTimeout s → RejectedOnlyTimeout (l.foldl stepTransport s) by
    refine hgen es initTransport ?_ c m h
    intro c0 m0 h0
    exact absurd h0 (by simp [outcomeOf, initTransport, lookupOutcome])
  intro l
  induction l with
  | nil => intro s hs; exact hs
  | cons e rest ih => intro s hs; exact ih _ (stepTransport_rejected s e hs)

/-! ### VoiceButton lemmas -/

theorem mem_filter_not_mem_append (acq se extra : List Nat) (n : Nat)
    (h : n ∈ acq.filter (fun m => decide (m ∉ se ++ extra))) :
    n ∈ acq.filter (fun m => decide (m ∉ se)) ∧ n ∉ extra := by
  simp only [List.mem_filter, decide_eq_true_eq, List.mem_append, not_or] at h
  simp only [List.mem_filter, decide_eq_true_eq]
  exact ⟨⟨h.1, h.2.1⟩, h.2.2⟩

theorem blobConcat_nil : blobConcat [] = [] := rfl

theorem blobConcat_cons (c : List Nat) (cs : List (List Nat)) :
    blobConcat (c :: cs) = c ++ blobConcat cs := rfl

theorem blobConcat_extract (cs : List (List Nat)) (i : Nat) (hi : i < cs.length) :
    ((blobConcat cs).drop (blobConcat (cs.take i)).length).take
        (cs.get ⟨i, hi⟩).length = cs.get ⟨i, hi⟩ := by
  induction cs generalizing i with
  | nil => exact absurd hi (by simp)
  | cons c rest ih =>
    cases i with
    | zero =>
      show ((c ++ blobConcat rest).drop (blobConcat []).length).take c.length = c
      rw [blobConcat_nil]
      simp [List.take_left]
    | succ j =>
      have hj : j < rest.length := by simpa using hi
      show ((c ++ blobConcat rest).drop (blobConcat (c :: rest.take j)).length).take
          (rest.get ⟨j, hj⟩).length = rest.get ⟨j, hj⟩
      rw [blobConcat_cons, List.length_append, List.drop_append]
      exact ih j hj

/-! ## Claims -/

/-- C1 (counterexample). The `send-to-backend` handler mints no
correlation id: the envelope has only `type` and `content` fields, and a
single `response` line on the shared stdout resolves EVERY pending send —
here one reply is delivered to two distinct outstanding requests, so
replies are not matched to requests by any identifier. -/
theorem single_reply_resolves_two_pending_sends :
    outcomeOf crossTalkState 0 =
      some (.resolved { reply := "hi", success := true, actions := [] }) ∧
    outcomeOf crossTalkState 1 =
      some (.resolved { reply := "hi", success := true, actions := [] }) ∧
    twoPendingState.written = [mkEnvelope "a", mkEnvelope "b"] ∧
    mkEnvelope "a" = { type := "message", content := "a" } := by
  refine ⟨by decide, by decide, by decide, rfl⟩

/-- C1 (corrected, amended): `send` registers a one-shot handler on the
shared stdout but mints no correlation id (the written envelope has only
`type` and `content`). Amended delivery guarantee: a caller whose promise
is already settled, or whose handler is no longer registered, is never
affected by any further stdout data — so a second reply is ignored and a
reply with no registered handler is dropped, without crashing any caller. -/
theorem send_reply_delivery_amended (s : TransportState) (c : Nat) (o : CallOutcome)
    (line : StdoutLine) (m : String)
    (ho : outcomeOf s c = some o) (h : o ≠ .pending ∨ c ∉ s.listeners) :
    outcomeOf (emitData line s) c = some o ∧
    (sendToBackend m s).written = s.written ++ [{ type := "message", content := m }] ∧
    (sendToBackend m s).listeners = s.listeners ++ [s.nextCallId] :=
  ⟨outcomeOf_emitData_stable s c o line ho h, rfl, rfl⟩

/-- Witness for C1: a timed-out call keeps its rejection when a late reply
arrives, and a fresh send writes the id-free envelope. -/
theorem send_reply_delivery_amended_witness :
    outcomeOf (emitData (.response "late" true []) wTimeoutState) 0 =
      some (.rejected "Backend response timeout") ∧
    (sendToBackend "m" wTimeoutState).written =
      wTimeoutState.written ++ [{ type := "message", content := "m" }] ∧
    (sendToBackend "m" wTimeoutState).listeners =
      wTimeoutState.listeners ++ [wTimeoutState.nextCallId] :=
  send_reply_delivery_amended wTimeoutState 0 (.rejected "Backend response timeout")
    (.response "late" true []) "m" (by decide) (Or.inl (by decide))

/-- C2 (confirmed). Every send arms a fixed 10000 ms timer; when it fires
on a still-pending call, the call is rejected with the backend-timeout
error and the response handler is deregistered, so any reply injected
afterwards is dropped: the outcome stays the timeout rejection. -/
theorem send_timeout_at_bound_and_deregisters (s : TransportState) (c : Nat)
    (m : String) (line : StdoutLine) (hp : outcomeOf s c = some .pending) :
    timeoutDelayMs = 10000 ∧
    (sendToBackend m s).timers = s.timers ++ [(s.nextCallId, 10000)] ∧
    outcomeOf (fireTimeout c s) c = some (.rejected "Backend response timeout") ∧
    c ∉ (fireTimeout c s).listeners ∧
    outcomeOf (emitData line (fireTimeout c s)) c =
      some (.rejected "Backend response timeout") := by
  have h3 : outcomeOf (fireTimeout c s) c =
      some (.rejected "Backend response timeout") := by
    show lookupOutcome (updateOutcome c (settleReject "Backend response timeout")
      s.outcomes) c = some (.rejected "Backend response timeout")
    rw [lookupOutcome_updateOutcome_self]
    have hp2 : lookupOutcome s.outcomes c = some .pending := hp
    rw [hp2]
    rfl
  have h4 : c ∉ (fireTimeout c s).listeners := by
    show c ∉ s.listeners.filter (fun x => x != c)
    intro hmem
    have := (List.mem_filter.mp hmem).2
    simp at this
  exact ⟨rfl, rfl, h3, h4,
    outcomeOf_emitData_stable (fireTimeout c s) c _ line h3 (Or.inr h4)⟩

/-- Witness for C2: a single pending send that times out. -/
theorem send_timeout_at_bound_and_deregisters_witness :
    timeoutDelayMs = 10000 ∧
    (sendToBackend "b" (sendToBackend "a" initTransport)).timers =
      (sendToBackend "a" initTransport).timers ++
        [((sendToBackend "a" initTransport).nextCallId, 10000)] ∧
    outcomeOf (fireTimeout 0 (sendToBackend "a" initTransport)) 0 =
      some (.rejected "Backend response timeout") ∧
    0 ∉ (fireTimeout 0 (sendToBackend "a" initTransport)).listeners ∧
    outcomeOf (emitData (.response "late" false [])
      (fireTimeout 0 (sendToBackend "a" initTransport))) 0 =
      some (.rejected "Backend response timeout") :=
  send_timeout_at_bound_and_deregisters (sendToBackend "a" initTransport) 0 "b"
    (.response "late" false []) (by decide)

/-- C4 (counterexample). On the normal stop path the one acquired stream
is released twice, not exactly once: `stopRecording` stops the tracks of
`streamRef.current` and then the `onstop` handler stops the same tracks
again. -/
theorem normal_stop_releases_stream_twice :
    normalStopRun.acquired = [0] ∧ normalStopRun.stopEvents = [0, 0] := by
  refine ⟨by decide, by decide⟩

/-- C4 (corrected, amended): the stream is released at least once on the
stop path and on component unmount, and those paths also clear the
transcription interval — but the normal stop path releases twice (stop
plus onstop, idempotent for tracks), and a failure inside `startRecording`
after acquisition releases nothing: the new stream stays held (on top of
whatever was held) until unmount. -/
theorem stream_release_amended (s : VBState) (n : Nat)
    (href : s.streamRef = some n) (hrec : s.isRecording = true)
    (hmr : s.recStream.isSome = true)
    (hfresh : s.nextStreamId ∉ s.stopEvents) :
    n ∈ (stopRecording s).stopEvents ∧ (stopRecording s).intervalActive = false ∧
    n ∈ (unmountCleanup s).stopEvents ∧ (unmountCleanup s).intervalActive = false ∧
    heldStreams (startRecordingFailLate s) = heldStreams s ++ [s.nextStreamId] ∧
    (startRecordingFailLate s).stopEvents = s.stopEvents := by
  have hguard : (s.recStream.isSome && s.isRecording) = true := by
    rw [hmr, hrec]
    rfl
  refine ⟨?_, ?_, ?_, rfl, ?_, rfl⟩
  · simp [stopRecording, hguard, href]
  · simp [stopRecording, hguard]
  · simp [unmountCleanup, href]
  · show (s.acquired ++ [s.nextStreamId]).filter (fun m => decide (m ∉ s.stopEvents))
        = s.acquired.filter (fun m => decide (m ∉ s.stopEvents)) ++ [s.nextStreamId]
    rw [List.filter_append]
    congr 1
    simp [hfresh]

/-- Witness for C4: instantiated on a freshly started recording. -/
theorem stream_release_amended_witness :
    0 ∈ (stopRecording (startRecording false initVB)).stopEvents ∧
    (stopRecording (startRecording false initVB)).intervalActive = false ∧
    0 ∈ (unmountCleanup (startRecording false initVB)).stopEvents ∧
    (unmountCleanup (startRecording false initVB)).intervalActive = false ∧
    heldStreams (startRecordingFailLate (startRecording false initVB)) =
      heldStreams (startRecording false initVB) ++
        [(startRecording false initVB).nextStreamId] ∧
    (startRecordingFailLate (startRecording false initVB)).stopEvents =
      (startRecording false initVB).stopEvents :=
  stream_release_amended (startRecording false initVB) 0 (by decide) (by decide)
    (by decide) (by decide)

/-- C5 (counterexample). `stop()` with zero recorded chunks does NOT fail
with an encoding error and does NOT avoid a backend request: the `onstop`
handler assembles an empty blob and still POSTs it to the transcription
endpoint (`requests` gains the empty payload, `isProcessing` is set). -/
theorem zero_chunk_stop_sends_transcribe_request :
    normalStopRun.chunks = [] ∧ normalStopRun.requests = [[]] ∧
    normalStopRun.isProcessing = true := by
  refine ⟨by decide, by decide, by decide⟩

/-- C5 (corrected, amended): with zero chunks the empty blob is still sent
for transcription (there is no `EncodingError` or `Failed` state); the
conversation log gains nothing only because an absent or blank
transcription result is not forwarded to the chat. -/
theorem zero_chunk_no_chat_message_amended (s : VBState) (n : Nat) (t : String)
    (hreq : s.recStopRequested = true) (hrs : s.recStream = some n)
    (hchunks : s.chunks = []) (ht : jsTrim t = "") :
    (fireOnStop s).requests = s.requests ++ [[]] ∧
    (onTranscriptionResult none s).chatOutputs = s.chatOutputs ∧
    (onTranscriptionResult (some t) s).chatOutputs = s.chatOutputs := by
  refine ⟨?_, rfl, ?_⟩
  · simp [fireOnStop, hreq, hrs, hchunks, blobConcat]
  · simp [onTranscriptionResult, ht]

/-- Witness for C5: a started-and-stopped recording with no chunks and a
blank transcription result. -/
theorem zero_chunk_no_chat_message_amended_witness :
    (fireOnStop (stopRecording (startRecording false initVB))).requests =
      (stopRecording (startRecording false initVB)).requests ++ [[]] ∧
    (onTranscriptionResult none
      (stopRecording (startRecording false initVB))).chatOutputs =
      (stopRecording (startRecording false initVB)).chatOutputs ∧
    (onTranscriptionResult (some " ")
      (stopRecording (startRecording false initVB))).chatOutputs =
      (stopRecording (startRecording false initVB)).chatOutputs :=
  zero_chunk_no_chat_message_amended (stopRecording (startRecording false initVB))
    0 " " (by decide) (by decide) (by decide) (by decide)

/-- C6 (counterexample). After the backend channel drops (the process
`close` event), `pythonProcess` is not cleared, so the connectivity guard
still passes: a subsequent send is NOT failed immediately with the
not-running error; the close handler merely schedules a 2000 ms restart. -/
theorem send_after_channel_close_not_rejected :
    sendToBackendGuard closedBackendState = .ok () ∧
    closedBackendState.pythonProcess = some { alive := false } ∧
    closedBackendState.restartScheduledMs = some 2000 := by
  refine ⟨rfl, by decide, by decide⟩

/-- C6 (corrected, amended): the not-running guard rejects exactly when
the backend was never spawned (`pythonProcess` still `null`); the close
handler keeps `pythonProcess` assigned and schedules a fixed 2000 ms
restart iff the window is open and the app is not quitting; and no
transport event ever fails an in-flight send with a channel-closed error —
the only rejection the wiring can produce is the 10 s backend-response
timeout. -/
theorem disconnect_handling_amended (s : MainState) (es : List TStep) (c : Nat)
    (m : String) (hrej : outcomeOf (runTransport es) c = some (.rejected m)) :
    (sendToBackendGuard s = .error "Python backend not running" ↔
      s.pythonProcess = none) ∧
    (onBackendClose s).pythonProcess.isSome = s.pythonProcess.isSome ∧
    (onBackendClose s).restartScheduledMs =
      (if s.mainWindow && !s.isQuitting then some 2000 else none) ∧
    m = "Backend response timeout" := by
  refine ⟨?_, ?_, ?_, runTransport_rejected es c m hrej⟩
  · cases hp : s.pythonProcess with
    | none => simp [sendToBackendGuard, hp]
    | some p => simp [sendToBackendGuard, hp]
  · cases hp : s.pythonProcess with
    | none => simp [onBackendClose, hp]
    | some p => simp [onBackendClose, hp]
  · simp [onBackendClose, restartDelayMs]

/-- Witness for C6: a send that times out after the channel closed. -/
theorem disconnect_handling_amended_witness :
    (sendToBackendGuard closedBackendState = .error "Python backend not running" ↔
      closedBackendState.pythonProcess = none) ∧
    (onBackendClose closedBackendState).pythonProcess.isSome =
      closedBackendState.pythonProcess.isSome ∧
    (onBackendClose closedBackendState).restartScheduledMs =
      (if closedBackendState.mainWindow && !closedBackendState.isQuitting
        then some 2000 else none) ∧
    "Backend response timeout" = "Backend response timeout" :=
  disconnect_handling_amended closedBackendState [.send "a", .timeout 0] 0
    "Backend response timeout" (by decide)

/-- C7 (confirmed). The encoded payload is the in-order concatenation of
the buffered chunks: `ondataavailable` appends each chunk at the end in
arrival order; `onstop` sends exactly `blobConcat chunks`, so two states
with identical chunk sequences produce byte-identical payloads; and the
bytes of chunk `i` appear in the payload exactly at the offset given by the
total length of the chunks before it — order and content are preserved. -/
theorem encode_deterministic_and_order_preserving (s s2 : VBState)
    (cs : List (List Nat)) (c : List Nat) (i : Nat) (hi : i < cs.length)
    (hreq : s.recStopRequested = true) (hrs : s.recStream.isSome = true)
    (hreq2 : s2.recStopRequested = true) (hrs2 : s2.recStream.isSome = true)
    (hc : s2.chunks = s.chunks) :
    (onDataAvailable c s).chunks = s.chunks ++ [c] ∧
    (fireOnStop s).requests = s.requests ++ [blobConcat s.chunks] ∧
    (fireOnStop s2).requests = s2.requests ++ [blobConcat s.chunks] ∧
    ((blobConcat cs).drop (blobConcat (cs.take i)).length).take
        (cs.get ⟨i, hi⟩).length = cs.get ⟨i, hi⟩ := by
  refine ⟨rfl, ?_, ?_, blobConcat_extract cs i hi⟩
  · cases hn : s.recStream with
    | none => rw [hn] at hrs; exact absurd hrs (by simp)
    | some n => simp [fireOnStop, hreq, hn]
  · cases hn : s2.recStream with
    | none => rw [hn] at hrs2; exact absurd hrs2 (by simp)
    | some n => simp [fireOnStop, hreq2, hn, hc]

/-- Witness for C7: two identical stopped recordings with chunks
`[[1,2],[3]]`, extracting chunk 1 of the payload. -/
theorem encode_deterministic_and_order_preserving_witness :
    (onDataAvailable [9]
      (stopRecording (onDataAvailable [3] (onDataAvailable [1, 2]
        (startRecording false initVB))))).chunks =
      (stopRecording (onDataAvailable [3] (onDataAvailable [1, 2]
        (startRecording false initVB)))).chunks ++ [[9]] ∧
    (fireOnStop (stopRecording (onDataAvailable [3] (onDataAvailable [1, 2]
      (startRecording false initVB))))).requests =
      (stopRecording (onDataAvailable [3] (onDataAvailable [1, 2]
        (startRecording false initVB)))).requests ++
        [blobConcat (stopRecording (onDataAvailable [3] (onDataAvailable [1, 2]
          (startRecording false initVB)))).chunks] ∧
    (fireOnStop (stopRecording (onDataAvailable [3] (onDataAvailable [1, 2]
      (startRecording false initVB))))).requests =
      (stopRecording (onDataAvailable [3] (onDataAvailable [1, 2]
        (startRecording false initVB)))).requests ++
        [blobConcat (stopRecording (onDataAvailable [3] (onDataAvailable [1, 2]
          (startRecording false initVB)))).chunks] ∧
    ((blobConcat [[1, 2], [3]]).drop
        (blobConcat (List.take 1 [[1, 2], [3]])).length).take
      (List.get [[1, 2], [3]] ⟨1, by decide⟩).length =
      List.get [[1, 2], [3]] ⟨1, by decide⟩ :=
  encode_deterministic_and_order_preserving
    (stopRecording (onDataAvailable [3] (onDataAvailable [1, 2]
      (startRecording false initVB))))
    (stopRecording (onDataAvailable [3] (onDataAvailable [1, 2]
      (startRecording false initVB))))
    [[1, 2], [3]] [9] 1 (by decide) (by decide) (by decide) (by decide)
    (by decide) rfl

/-- Used by the C8 proofs: every reply entry gets id `Date.now() + 1`. -/
theorem replyMsg_id (now2 : Nat) (res : ChatResult) : (replyMsg now2 res).id = now2 + 1 := by
  cases res <;> rfl

/-- C8 (counterexample). Message ids come from the wall clock
(`Date.now()` for the user entry, `Date.now() + 1` for the reply), so ids
can collide: a send at t=100 whose reply arrives within the same
millisecond produces reply id 101, and a next send at t=101 reuses id 101
— the id sequence `[1, 100, 101, 101, 201]` is neither strictly
increasing nor unique. -/
theorem clock_ids_can_collide :
    dupIdRun.messages.map Msg.id = [1, 100, 101, 101, 201] ∧
    ¬ List.Pairwise (fun a b => a < b) (dupIdRun.messages.map Msg.id) ∧
    ¬ List.Nodup (dupIdRun.messages.map Msg.id) := by
  refine ⟨by decide, by decide, by decide⟩

/-- C8 (corrected, amended): the log is genuinely append-only — every
`sendMessage` leaves the existing entries as an unchanged front segment —
and the clock-derived ids are strictly increasing (hence unique) exactly
when every append happens at a clock value above all existing ids, with
the reply clock no earlier than the send clock. -/
theorem log_append_only_and_ids_amended (mtext : Option String) (now now2 : Nat)
    (res : ChatResult) (s : ChatState)
    (hmono : ∀ mg, mg ∈ s.messages → mg.id < now) (hseq : now ≤ now2)
    (hpair : List.Pairwise (fun a b => a < b) (s.messages.map Msg.id)) :
    (∃ tail, (sendMessage mtext now now2 res s).messages = s.messages ++ tail) ∧
    List.Pairwise (fun a b => a < b)
      ((sendMessage mtext now now2 res s).messages.map Msg.id) := by
  by_cases hg : textToSend mtext s = ""
  · have hid : sendMessage mtext now now2 res s = s := by simp [sendMessage, hg]
    rw [hid]
    exact ⟨⟨[], by simp⟩, hpair⟩
  by_cases hl : s.isLoading = true
  · have hid : sendMessage mtext now now2 res s = s := by simp [sendMessage, hl]
    rw [hid]
    exact ⟨⟨[], by simp⟩, hpair⟩
  have hlf : s.isLoading = false := by simpa using hl
  have hmsg : (sendMessage mtext now now2 res s).messages =
      s.messages ++ [userMsg (textToSend mtext s) now, replyMsg now2 res] := by
    simp [sendMessage, hg, hlf]
  rw [hmsg]
  refine ⟨⟨_, rfl⟩, ?_⟩
  rw [List.map_append, List.pairwise_append]
  refine ⟨hpair, ?_, ?_⟩
  · show List.Pairwise (fun a b => a < b) [(userMsg (textToSend mtext s) now).id,
      (replyMsg now2 res).id]
    rw [replyMsg_id]
    refine List.pairwise_cons.mpr ⟨?_, List.pairwise_singleton _ _⟩
    intro b hb
    rw [List.mem_singleton] at hb
    subst hb
    exact Nat.lt_succ_of_le hseq
  · intro a ha b hb
    rw [List.mem_map] at ha
    obtain ⟨mg, hmg, hae⟩ := ha
    have halt : a < now := by rw [← hae]; exact hmono mg hmg
    have hmap2 : List.map Msg.id [userMsg (textToSend mtext s) now, replyMsg now2 res]
        = [now, now2 + 1] := by
      simp [userMsg, replyMsg_id]
    rw [hmap2] at hb
    simp only [List.mem_cons, List.mem_singleton, List.not_mem_nil, or_false] at hb
    rcases hb with hb | hb
    · rw [hb]; exact halt
    · rw [hb]; exact Nat.lt_succ_of_le (le_trans (le_of_lt halt) hseq)

/-- Witness for C8: a send on the initial log at clock 500/600. -/
theorem log_append_only_and_ids_amended_witness :
    (∃ tail, (sendMessage (some "x") 500 600 (.ok "y" none) chatInit).messages =
      chatInit.messages ++ tail) ∧
    List.Pairwise (fun a b => a < b)
      ((sendMessage (some "x") 500 600 (.ok "y" none) chatInit).messages.map Msg.id) :=
  log_append_only_and_ids_amended (some "x") 500 600 (.ok "y" none) chatInit
    (by decide) (by decide) (by decide)

/-- C9 (counterexample). A complete voice session whose transcription
fails ends with NO user-visible effect: the transcribe request was made
(`requests` nonempty), the result was `none`, and afterwards the chat
outputs and alerts are empty and no processing indicator remains — the
failure is only logged to the console. -/
theorem transcription_failure_surfaces_nothing :
    silentFailureRun.requests = [[1, 2, 3]] ∧
    silentFailureRun.chatOutputs = [] ∧
    silentFailureRun.alerts = [] ∧
    silentFailureRun.isProcessing = false ∧
    silentFailureRun.isRecording = false := by
  refine ⟨by decide, by decide, by decide, by decide, by decide⟩

/-- C9 (corrected, amended): errors on the chat path ARE surfaced — a
`success: false` reply appends an `Error: ...` assistant entry and a fetch
failure appends the connection-trouble entry — and a microphone permission
failure raises an alert; but a failed or empty voice transcription
produces no log entry, alert, or indicator (see the counterexample). -/
theorem error_surfacing_amended (mtext : Option String) (now now2 : Nat) (e : String)
    (s : ChatState) (vb : VBState)
    (hg : ¬ textToSend mtext s = "") (hl : s.isLoading = false) :
    (sendMessage mtext now now2 (.err e) s).messages =
      s.messages ++ [userMsg (textToSend mtext s) now, replyMsg now2 (.err e)] ∧
    (replyMsg now2 (.err e)).text = "Error: " ++ e ∧
    (replyMsg now2 (.err e)).sender = "ai" ∧
    (sendMessage mtext now now2 .fetchFail s).messages =
      s.messages ++ [userMsg (textToSend mtext s) now, replyMsg now2 .fetchFail] ∧
    (startRecordingDenied vb).alerts =
      vb.alerts ++ ["Unable to access microphone. Please check permissions."] := by
  refine ⟨?_, rfl, rfl, ?_, rfl⟩
  · simp [sendMessage, hg, hl]
  · simp [sendMessage, hg, hl]

/-- Witness for C9: a failing chat request on the initial state. -/
theorem error_surfacing_amended_witness :
    (sendMessage (some "hi") 10 20 (.err "boom") chatInit).messages =
      chatInit.messages ++
        [userMsg (textToSend (some "hi") chatInit) 10, replyMsg 20 (.err "boom")] ∧
    (replyMsg 20 (.err "boom")).text = "Error: " ++ "boom" ∧
    (replyMsg 20 (.err "boom")).sender = "ai" ∧
    (sendMessage (some "hi") 10 20 .fetchFail chatInit).messages =
      chatInit.messages ++
        [userMsg (textToSend (some "hi") chatInit) 10, replyMsg 20 .fetchFail] ∧
    (startRecordingDenied initVB).alerts =
      initVB.alerts ++ ["Unable to access microphone. Please check permissions."] :=
  error_surfacing_amended (some "hi") 10 20 "boom" chatInit initVB (by decide) (by decide)

/-- C10 (counterexample). An explicit `messageText` is used untrimmed by
the JS `||` chain: `sendMessage(" ")` has effective text whose trim is
empty, yet the call is NOT a no-op — it appends a whitespace user message
and a reply and issues a backend request. -/
theorem whitespace_message_text_is_sent :
    jsTrim " " = "" ∧
    chatInit.isLoading = false ∧
    whitespaceSendRun.messages =
      chatInit.messages ++ [userMsg " " 50, replyMsg 60 (.ok "r" none)] ∧
    whitespaceSendRun.requests = [" "] := by
  refine ⟨by decide, by decide, by decide, by decide⟩

/-- C10 (corrected, amended): `sendMessage` is a complete no-op (the whole
state, including the log, the input fields and the request list, is
unchanged) exactly when a request is in flight or the computed
`textToSend` — `messageText` if non-empty, else trimmed `input`, else
trimmed `liveTranscription` — is empty; an explicit non-empty
`messageText` is passed through untrimmed. -/
theorem sendMessage_noop_amended (mtext : Option String) (now now2 : Nat)
    (res : ChatResult) (s : ChatState) (t : String)
    (h : textToSend mtext s = "" ∨ s.isLoading = true) (ht : ¬ t = "") :
    sendMessage mtext now now2 res s = s ∧ textToSend (some t) s = t := by
  constructor
  · rcases h with h | h
    · simp [sendMessage, h]
    · simp [sendMessage, h]
  · simp [textToSend, jsOrString, ht]

/-- Witness for C10: an empty-input call while idle is a no-op, and a
non-empty explicit text is used as given. -/
theorem sendMessage_noop_amended_witness :
    sendMessage none 7 8 (.ok "y" none) chatInit = chatInit ∧
    textToSend (some " x ") chatInit = " x " :=
  sendMessage_noop_amended none 7 8 (.ok "y" none) chatInit " x "
    (Or.inl (by decide)) (by decide)

end DAWZY
